import Mathlib

/-!
# TechStudy service worker — verification development

Shallow embedding of the caching / tiled range-proxy engine implemented in
`sw.techstudy.js` (the authoritative variant; `sw.js` is an earlier copy of
the same logic).  Bodies of HTTP responses are modelled as `List Nat`
(byte lists), JS numbers that stay non-negative as `Nat`, and the only
signed computation (`Blob.slice` clamping) as `Int`.  The network is an
explicit environment record; the PouchDB tile store and the versioned
Cache-API store are association lists.
-/

/-- 4 MB tiles: `const TILE_SIZE = 4 * 1024 * 1024`. -/
def TILE_SIZE : Nat := 4 * 1024 * 1024

/-- `const APP_NS = 'techstudy'`. -/
def APP_NS : String := "techstudy"

/-- `const VERSION = 'v8'`. -/
def VERSION : String := "v8"

/-- `const CACHE_NAME = ` the namespace-and-version cache name. -/
def CACHE_NAME : String := "study-notes-" ++ APP_NS ++ "-" ++ VERSION

/-- The namespace marker `study-notes-techstudy-` used by the activate sweep. -/
def nsMarker : String := "study-notes-" ++ APP_NS ++ "-"

/-- JS `String.prototype.startsWith`, on the code-unit (character) level. -/
def strStarts (p s : String) : Bool := List.isPrefixOf p.data s.data

/-- An HTTP response: status code plus body bytes.  `ok` is derived, as in
    the Fetch standard (`Response.ok` iff status in 200..299). -/
structure Resp where
  status : Nat
  body : List Nat
  deriving DecidableEq, Repr

/-- `Response.ok`: status in the inclusive range 200..299. -/
def Resp.ok (r : Resp) : Bool := decide (200 ≤ r.status ∧ r.status < 300)

/-- W3C `Blob.slice(start, end)` byte-range semantics: negative indices are
    relative to the end, both indices are clamped to the size, and the span
    is empty when `end ≤ start` after clamping. -/
def blobSlice (bytes : List Nat) (s e : Int) : List Nat :=
  let size : Int := bytes.length
  let rs : Int := if s < 0 then max (size + s) 0 else min s size
  let re : Int := if e < 0 then max (size + e) 0 else min e size
  let span : Int := max (re - rs) 0
  (bytes.drop rs.toNat).take span.toNat

/- -------------------- Google Drive tiling engine -------------------- -/

/-- `const tileIndex = Math.floor(start / TILE_SIZE)` (Nat division is the
    floor for non-negative numbers). -/
def tileIndex (start : Nat) : Nat := start / TILE_SIZE

/-- `const tileStart = tileIndex * TILE_SIZE`. -/
def tileStart (start : Nat) : Nat := tileIndex start * TILE_SIZE

/-- `const tileEnd = totalSize ? Math.min(tileStart + TILE_SIZE - 1, totalSize - 1)
    : (tileStart + TILE_SIZE - 1)`; `totalSize = 0` encodes "unknown", exactly
    as `getTotalSize` returns `0` when every probe fails. -/
def tileEnd (tStart totalSize : Nat) : Nat :=
  if totalSize ≠ 0 then min (tStart + TILE_SIZE - 1) (totalSize - 1)
  else tStart + TILE_SIZE - 1

/-- `const requestedEnd = m?.[2] ? parseInt(m[2], 10) : start + TILE_SIZE - 1`:
    the client's requested end, defaulting to one tile span. -/
def requestedEnd (start : Nat) (reqEnd? : Option Nat) : Nat :=
  match reqEnd? with
  | some e => e
  | none => start + TILE_SIZE - 1

/-- Candidate resolution of `handleDrivePdf`: `driveCandidates` yields the
    CORS-capable v3 endpoint first, then two non-CORS fallbacks; the size
    loop keeps candidate 0 unless its probe fails and a later candidate's
    probe succeeds.  Input: the three probed sizes (`0` = unknown).
    Output: `(candidate index, allowRead, totalSize)`. -/
def resolveUpstream (s0 s1 s2 : Nat) : Nat × Bool × Nat :=
  if s0 ≠ 0 then (0, true, s0)
  else if s1 ≠ 0 then (1, false, s1)
  else if s2 ≠ 0 then (2, false, s2)
  else (0, true, 0)

/-- JS `String(n).padStart(6, '0')` applied to a decimal rendering. -/
def jsPadStart (s : String) (n : Nat) (c : Char) : String :=
  String.mk (List.replicate (n - s.length) c) ++ s

/-- The PouchDB document id `pdf:${fileId}:chunk:${String(tileIndex).padStart(6,'0')}`. -/
def docIdFor (fileId : String) (tIdx : Nat) : String :=
  "pdf:" ++ fileId ++ ":chunk:" ++ jsPadStart (toString tIdx) 6 '0'

/-- The PouchDB tile cache: document id to stored attachment bytes. -/
abbrev TileStore : Type := List (String × List Nat)

/-- `TileDB.getAttachment(docId, 'bin')` (a rejection on a missing document
    is caught by the caller, so absence is `none`). -/
def lookupTile (store : TileStore) (id : String) : Option (List Nat) :=
  List.lookup id store

/-- `TileDB.put({_id: docId, ..., _attachments: {bin: ...}})`. -/
def putTile (store : TileStore) (id : String) (b : List Nat) : TileStore :=
  (id, b) :: store

/-- Result of `fetchTile`: a readable byte blob, or the whole `Response`
    handed back for pass-through. -/
inductive TileGot where
  | bytes (b : List Nat)
  | resp (r : Resp)
  deriving DecidableEq

/-- `fetchTile`: the ranged fetch already performed, this is the
    post-processing — `if (allowReadBytes && resp.ok)` materialize the body
    as a blob, otherwise return the whole response. -/
def fetchTile (r : Resp) (allowReadBytes : Bool) : TileGot :=
  if allowReadBytes && r.ok then .bytes r.body else .resp r

/-- A synthesized service-worker response: either the 206 partial-content
    response built by `handleDrivePdf` (carrying body slice, served range
    and the `totalSize`-or-0 marker the headers are rendered from), or an
    upstream response passed through verbatim. -/
inductive SWResponse where
  | resp206 (body : List Nat) (rStart rEnd : Nat) (total : Nat)
  | passThrough (r : Resp)
  deriving DecidableEq

/-- Status of a synthesized response: the literal `status: 206` for the
    partial-content constructor, the upstream status for pass-through. -/
def statusOf : SWResponse → Nat
  | .resp206 _ _ _ _ => 206
  | .passThrough r => r.status

/-- Body of a synthesized response. -/
def bodyOf : SWResponse → List Nat
  | .resp206 b _ _ _ => b
  | .passThrough r => r.body

/-- The `Content-Range` header: `bytes ${start}-${end}/${totalSize || '*'}`. -/
def contentRangeOf : SWResponse → Option String
  | .resp206 _ s e t =>
      some ("bytes " ++ toString s ++ "-" ++ toString e ++ "/" ++
        (if t = 0 then "*" else toString t))
  | .passThrough _ => none

/-- The `Content-Length` header: `String(slice.size)`, i.e. the actual
    length of the body slice that was just built. -/
def contentLengthOf : SWResponse → Option Nat
  | .resp206 b _ _ _ => some b.length
  | .passThrough _ => none

/-- The slice-and-respond step shared by the tile-cache-hit branch and the
    fresh-fetch branch of `handleDrivePdf`:
    `offset = start - tileStart;
     slice = bytes.slice(offset, offset + (end - start + 1), 'application/pdf')`
    wrapped in a 206 response. -/
def mk206 (bytes : List Nat) (start tStart e totalSize : Nat) : SWResponse :=
  let offset : Int := (start : Int) - (tStart : Int)
  let slice := blobSlice bytes offset (offset + ((e : Int) - (start : Int) + 1))
  .resp206 slice start e totalSize

/-- The network, seen from one `handleDrivePdf` invocation: the probed size
    of each upstream candidate (`getTotalSize` result, `0` = unknown), the
    response to a ranged tile fetch `(candidate, rangeStart, rangeEnd)`,
    and the response to the un-ranged pass-through fetch. -/
structure DriveEnv where
  probe : Nat → Nat
  tileResp : Nat → Nat → Nat → Resp
  plain : Resp

/-- `handleDrivePdf` for a GET on `<scope>/drivepdf/<fileId>`.
    `range` is the parse of the `Range` header by `/bytes=(\d+)-(\d*)/`:
    `none` when the header is absent, otherwise the captured start and
    optional end.  `tdb` is whether the PouchDB tile cache loaded.
    Returns the response, the tile store after the request, and whether a
    network fetch for object bytes was issued. -/
def handleDrivePdf (env : DriveEnv) (tdb : Bool) (store : TileStore)
    (fileId : String) (range : Option (Nat × Option Nat)) :
    SWResponse × TileStore × Bool :=
  match range with
  | none => (.passThrough env.plain, store, true)
  | some (start, reqEnd?) =>
    let res := resolveUpstream (env.probe 0) (env.probe 1) (env.probe 2)
    let cand := res.1
    let allowRead := res.2.1
    let totalSize := res.2.2
    let reqEnd := requestedEnd start reqEnd?
    let tIdx := tileIndex start
    let tStart := tileStart start
    let tEnd := tileEnd tStart totalSize
    let e := min tEnd reqEnd
    let docId := docIdFor fileId tIdx
    let hit := if tdb && allowRead then lookupTile store docId else none
    match hit with
    | some cached => (mk206 cached start tStart e totalSize, store, false)
    | none =>
      let resp := env.tileResp cand tStart tEnd
      match fetchTile resp allowRead with
      | .resp r2 => (.passThrough r2, store, true)
      | .bytes tileBlob =>
        let store2 := if tdb && allowRead then putTile store docId tileBlob
          else store
        (mk206 tileBlob start tStart e totalSize, store2, true)

/- -------------------- Cache-key normalization -------------------- -/

/-- A same-origin request as the strategy layer sees it. -/
structure SWRequest where
  origin : String
  path : String
  query : List (String × String)
  method : String
  headers : List (String × String)
  deriving DecidableEq, Repr

/-- The normalized cache key: the `new Request(url.pathname + url.search,
    {method: 'GET', headers, mode: 'same-origin', credentials: 'same-origin'})`
    built by `cacheKeyFor`. -/
structure CacheKey where
  path : String
  query : List (String × String)
  method : String
  headers : List (String × String)
  mode : String
  credentials : String
  deriving DecidableEq, Repr

/-- `url.searchParams.delete('v')`: removes every pair named `name`,
    keeping the relative order of the rest. -/
def deleteParam (name : String) (q : List (String × String)) :
    List (String × String) :=
  q.filter (fun p => p.1 ≠ name)

/-- `cacheKeyFor(request)`: `null` for a cross-origin request, otherwise
    the key with the `v` cache-buster stripped, method forced to GET, and
    same-origin mode and credentials. -/
def cacheKeyFor (selfOrigin : String) (r : SWRequest) : Option CacheKey :=
  if r.origin ≠ selfOrigin then none
  else some ⟨r.path, deleteParam "v" r.query, "GET", r.headers,
    "same-origin", "same-origin"⟩

/- -------------------- Activate sweep -------------------- -/

/-- The predicate of the activate sweep:
    `k !== CACHE_NAME && k.startsWith('study-notes-techstudy-')`. -/
def sweepTest (k : String) : Bool := (k != CACHE_NAME) && strStarts nsMarker k

/-- The cache names `activate` deletes: `keys.filter(...).map(k => caches.delete(k))`. -/
def sweepDeleted (keys : List String) : List String := keys.filter sweepTest

/-- The cache names still present after activation. -/
def sweepRemaining (keys : List String) : List String :=
  keys.filter (fun k => !(sweepTest k))

/- -------------------- Navigation and asset strategies -------------------- -/

/-- The versioned Cache-API store for `CACHE_NAME`. -/
abbrev VCache : Type := List (CacheKey × Resp)

/-- `cache.match(key)`. -/
def lookupCache (c : VCache) (k : CacheKey) : Option Resp :=
  List.lookup k c

/-- `cache.put(key, resp)`: overwrite the entry for `key`. -/
def putCache (c : VCache) (k : CacheKey) (r : Resp) : VCache :=
  (k, r) :: c.filter (fun p => p.1 ≠ k)

/-- The world one navigation request runs in: the navigation-preload
    response if one was in flight, the `fetch(req)` outcome (`none` =
    network failure / rejection), whether the detached `caches.open(...)
    .then(c => c.put(...))` background write succeeds, and the results the
    offline fallback `caches.match` calls would give. -/
structure NavEnv where
  preload : Option Resp
  fetchRes : Option Resp
  putOk : Bool
  rawMatch : Option Resp
  indexCached : Option Resp

/-- The navigation (document) branch of the fetch handler: network-first,
    fire-and-forget cache write, offline fallback to the cached key (or the
    raw request when the key is `null`) and then to `./index.html`. -/
def navigationHandle (env : NavEnv) (key? : Option CacheKey) (cache : VCache) :
    Option Resp × VCache :=
  match env.preload with
  | some p =>
    let cache2 := match key? with
      | some k => if env.putOk then putCache cache k p else cache
      | none => cache
    (some p, cache2)
  | none =>
    match env.fetchRes with
    | some fresh =>
      let cache2 := match key? with
        | some k => if env.putOk then putCache cache k fresh else cache
        | none => cache
      (some fresh, cache2)
    | none =>
      let cached := match key? with
        | some k => lookupCache cache k
        | none => env.rawMatch
      (match cached with
        | some c => some c
        | none => env.indexCached, cache)

/-- The world one static-asset request runs in: the `fetch(req)` outcome
    (`none` = rejection) and whether the best-effort revalidation write
    succeeds. -/
structure AssetEnv where
  fetchRes : Option Resp
  putOk : Bool

/-- The static-asset branch of the fetch handler (cache-first,
    stale-while-revalidate): `cached = cache.match(key)`;
    `networkPromise = fetch(req).then(res => {cache.put(key, res.clone())
    .catch(() => \x7b\x7d); return res}).catch(() => cached)`;
    `return cached || networkPromise`. -/
def assetHandle (env : AssetEnv) (k : CacheKey) (cache : VCache) :
    Option Resp × VCache :=
  let cached := lookupCache cache k
  let cache2 := match env.fetchRes with
    | some r => if env.putOk then putCache cache k r else cache
    | none => cache
  let netResult : Option Resp := match env.fetchRes with
    | some r => some r
    | none => cached
  (match cached with
    | some c => some c
    | none => netResult, cache2)

/- -------------------- Concrete sample worlds -------------------- -/

/-- A world with a 10-byte object: candidate 0 probes size 10, ranged
    fetches answer 206 with the whole object. -/
def envSized : DriveEnv :=
  ⟨fun i => if i = 0 then 10 else 0,
   fun _ _ _ => ⟨206, [0, 1, 2, 3, 4, 5, 6, 7, 8, 9]⟩, ⟨200, []⟩⟩

/-- A world where every size probe fails (`getTotalSize` = 0 everywhere)
    but ranged fetches still succeed. -/
def envUnknown : DriveEnv :=
  ⟨fun _ => 0, fun _ _ _ => ⟨200, [7, 7, 7]⟩, ⟨200, []⟩⟩

/-- A world where candidate 0 probes size 10 but the ranged tile fetch
    fails upstream with a 404. -/
def envNotOk : DriveEnv :=
  ⟨fun i => if i = 0 then 10 else 0, fun _ _ _ => ⟨404, [9]⟩, ⟨200, []⟩⟩

/- ==================== Theorems ==================== -/

lemma tileSize_pos : 0 < TILE_SIZE := by norm_num [TILE_SIZE]

lemma tileStart_le_self (s : Nat) : tileStart s ≤ s := by
  unfold tileStart tileIndex
  exact Nat.div_mul_le_self s TILE_SIZE

lemma self_lt_tileStart_add (s : Nat) : s < tileStart s + TILE_SIZE := by
  unfold tileStart tileIndex
  have h1 := Nat.div_add_mod s TILE_SIZE
  have h2 : s % TILE_SIZE < TILE_SIZE := Nat.mod_lt _ tileSize_pos
  rw [Nat.mul_comm]
  omega

lemma blobSlice_length (bytes : List Nat) (o len : Nat)
    (h : o + len ≤ bytes.length) :
    (blobSlice bytes (o : Int) ((o : Int) + (len : Int))).length = len := by
  simp only [blobSlice]
  rw [if_neg (by omega), if_neg (by omega)]
  simp only [List.length_take, List.length_drop]
  omega

/-- C1: for a ranged drivepdf request with start `s` and tile size
    `TILE_SIZE = 4·1024·1024`, the tile window is `tileIndex = ⌊s / T⌋`,
    `tileStart = tileIndex · T` (hence `tileStart ≤ s < tileStart + T`),
    and `tileEnd = min(tileStart + T − 1, totalSize − 1)` when the probed
    total size is known (positive), else `tileStart + T − 1`. -/
theorem c1_tile_window (start total : Nat) :
    tileIndex start = start / TILE_SIZE ∧
    tileStart start = tileIndex start * TILE_SIZE ∧
    tileStart start ≤ start ∧ start < tileStart start + TILE_SIZE ∧
    (0 < total → tileEnd (tileStart start) total =
      min (tileStart start + TILE_SIZE - 1) (total - 1)) ∧
    (total = 0 → tileEnd (tileStart start) total =
      tileStart start + TILE_SIZE - 1) := by
  refine ⟨rfl, rfl, tileStart_le_self start, self_lt_tileStart_add start, ?_, ?_⟩
  · intro h
    unfold tileEnd
    rw [if_pos (by omega)]
  · intro h
    unfold tileEnd
    rw [if_neg (by omega)]

theorem c1_tile_window_witness :
    tileStart 5000000 ≤ 5000000 ∧
    tileEnd (tileStart 5000000) 10000000 =
      min (tileStart 5000000 + TILE_SIZE - 1) (10000000 - 1) ∧
    tileEnd (tileStart 0) 0 = tileStart 0 + TILE_SIZE - 1 :=
  ⟨(c1_tile_window 5000000 10000000).2.2.1,
   (c1_tile_window 5000000 10000000).2.2.2.2.1 (by norm_num),
   (c1_tile_window 0 0).2.2.2.2.2 rfl⟩

/-- C3: the 206 body is sliced as
    `bytes[offset : offset + (end − start + 1)]` with
    `offset = start − tileStart`; for valid inputs (the request start inside
    the tile, `start ≤ end`, and the tile bytes covering up to `end`) the
    slice length equals `end − start + 1`, and the `Content-Length` header
    equals the actual slice length. -/
theorem c3_slice_exact (bytes : List Nat) (start tStart e total : Nat)
    (h1 : tStart ≤ start) (h2 : start ≤ e)
    (h3 : e + 1 ≤ tStart + bytes.length) :
    bodyOf (mk206 bytes start tStart e total) =
      blobSlice bytes ((start : Int) - tStart)
        (((start : Int) - tStart) + ((e : Int) - start + 1)) ∧
    (bodyOf (mk206 bytes start tStart e total)).length = e - start + 1 ∧
    contentLengthOf (mk206 bytes start tStart e total) =
      some (e - start + 1) := by
  have ho : ((start : Int) - tStart) = ((start - tStart : Nat) : Int) := by
    omega
  have hl : ((start : Int) - tStart) + ((e : Int) - start + 1) =
      ((start - tStart : Nat) : Int) + ((e - start + 1 : Nat) : Int) := by
    omega
  have hlen : (start - tStart) + (e - start + 1) ≤ bytes.length := by omega
  have hmain :
      (blobSlice bytes ((start : Int) - tStart)
        (((start : Int) - tStart) + ((e : Int) - start + 1))).length =
        e - start + 1 := by
    rw [hl, ho]
    exact blobSlice_length bytes (start - tStart) (e - start + 1) hlen
  exact ⟨rfl, hmain, congrArg some hmain⟩

theorem c3_slice_exact_witness :
    (bodyOf (mk206 [0, 1, 2, 3, 4, 5, 6, 7, 8, 9] 2 0 5 10)).length =
      5 - 2 + 1 ∧
    contentLengthOf (mk206 [0, 1, 2, 3, 4, 5, 6, 7, 8, 9] 2 0 5 10) =
      some (5 - 2 + 1) :=
  ⟨(c3_slice_exact [0, 1, 2, 3, 4, 5, 6, 7, 8, 9] 2 0 5 10 (by decide)
      (by decide) (by decide)).2.1,
   (c3_slice_exact [0, 1, 2, 3, 4, 5, 6, 7, 8, 9] 2 0 5 10 (by decide)
      (by decide) (by decide)).2.2⟩

/-- C2: a ranged drivepdf request is answered from exactly one tile: every
    synthesized response is a 206 whose served range starts at the client's
    requested start and ends at `min(tileEnd, requestedEnd)`, and that range
    lies inside the single covering tile: `tileStart ≤ start` and
    `end ≤ tileEnd`. -/
theorem c2_single_tile (env : DriveEnv) (tdb : Bool) (store : TileStore)
    (fid : String) (start : Nat) (reqEnd? : Option Nat)
    (b : List Nat) (s e t : Nat)
    (h : (handleDrivePdf env tdb store fid (some (start, reqEnd?))).1 =
      SWResponse.resp206 b s e t) :
    statusOf (handleDrivePdf env tdb store fid (some (start, reqEnd?))).1 =
      206 ∧
    s = start ∧
    e = min (tileEnd (tileStart start)
        (resolveUpstream (env.probe 0) (env.probe 1) (env.probe 2)).2.2)
      (requestedEnd start reqEnd?) ∧
    tileStart start ≤ s ∧
    e ≤ tileEnd (tileStart start)
      (resolveUpstream (env.probe 0) (env.probe 1) (env.probe 2)).2.2 := by
  have hmain : s = start ∧
      e = min (tileEnd (tileStart start)
          (resolveUpstream (env.probe 0) (env.probe 1) (env.probe 2)).2.2)
        (requestedEnd start reqEnd?) := by
    simp only [handleDrivePdf] at h
    split at h
    · simp only [mk206] at h
      rw [SWResponse.resp206.injEq] at h
      exact ⟨h.2.1.symm, h.2.2.1.symm⟩
    · split at h
      · simp at h
      · simp only [mk206] at h
        rw [SWResponse.resp206.injEq] at h
        exact ⟨h.2.1.symm, h.2.2.1.symm⟩
  obtain ⟨hs, he⟩ := hmain
  refine ⟨by rw [h]; rfl, hs, he, ?_, ?_⟩
  · rw [hs]
    exact tileStart_le_self start
  · rw [he]
    exact min_le_left _ _

theorem c2_single_tile_witness :
    statusOf (handleDrivePdf envSized true [] "f" (some (2, some 5))).1 =
      206 ∧
    (2 : Nat) = 2 ∧
    (5 : Nat) = min (tileEnd (tileStart 2)
        (resolveUpstream (envSized.probe 0) (envSized.probe 1)
          (envSized.probe 2)).2.2)
      (requestedEnd 2 (some 5)) ∧
    tileStart 2 ≤ 2 ∧
    (5 : Nat) ≤ tileEnd (tileStart 2)
      (resolveUpstream (envSized.probe 0) (envSized.probe 1)
        (envSized.probe 2)).2.2 :=
  c2_single_tile envSized true [] "f" 2 (some 5) [2, 3, 4, 5] 2 5 10
    (by decide)

lemma resolveUpstream_read (s0 s1 s2 : Nat)
    (h : (resolveUpstream s0 s1 s2).2.1 = true) :
    resolveUpstream s0 s1 s2 = (0, true, s0) := by
  unfold resolveUpstream at h ⊢
  split_ifs at h ⊢ <;> simp_all

/-- Branch lemma: with the tile cache disabled or missing this tile,
    `handleDrivePdf` goes to the fetch path. -/
lemma drive_fetch_path (env : DriveEnv) (tdb : Bool) (store : TileStore)
    (fid : String) (start : Nat) (reqEnd? : Option Nat)
    (hmiss : tdb = false ∨
      lookupTile store (docIdFor fid (tileIndex start)) = none) :
    handleDrivePdf env tdb store fid (some (start, reqEnd?)) =
      (match fetchTile (env.tileResp
          (resolveUpstream (env.probe 0) (env.probe 1) (env.probe 2)).1
          (tileStart start)
          (tileEnd (tileStart start)
            (resolveUpstream (env.probe 0) (env.probe 1) (env.probe 2)).2.2))
          (resolveUpstream (env.probe 0) (env.probe 1) (env.probe 2)).2.1 with
        | .resp r2 => (.passThrough r2, store, true)
        | .bytes tileBlob =>
          (mk206 tileBlob start (tileStart start)
            (min (tileEnd (tileStart start)
                (resolveUpstream (env.probe 0) (env.probe 1)
                  (env.probe 2)).2.2)
              (requestedEnd start reqEnd?))
            (resolveUpstream (env.probe 0) (env.probe 1) (env.probe 2)).2.2,
           (if tdb &&
               (resolveUpstream (env.probe 0) (env.probe 1)
                 (env.probe 2)).2.1 then
              putTile store (docIdFor fid (tileIndex start)) tileBlob
            else store), true)) := by
  simp only [handleDrivePdf]
  have hnone : (if tdb &&
      (resolveUpstream (env.probe 0) (env.probe 1) (env.probe 2)).2.1 then
      lookupTile store (docIdFor fid (tileIndex start)) else none) = none := by
    rcases hmiss with h | h
    · rw [h]
      rfl
    · split <;> simp [h]
  rw [hnone]

/-- Branch lemma: with the tile cache enabled, a readable candidate and a
    persisted tile, `handleDrivePdf` answers from the cache with no fetch. -/
lemma drive_hit_path (env : DriveEnv) (store : TileStore)
    (fid : String) (start : Nat) (reqEnd? : Option Nat) (cached : List Nat)
    (hread : (resolveUpstream (env.probe 0) (env.probe 1)
      (env.probe 2)).2.1 = true)
    (hlook : lookupTile store (docIdFor fid (tileIndex start)) =
      some cached) :
    handleDrivePdf env true store fid (some (start, reqEnd?)) =
      (mk206 cached start (tileStart start)
        (min (tileEnd (tileStart start)
            (resolveUpstream (env.probe 0) (env.probe 1) (env.probe 2)).2.2)
          (requestedEnd start reqEnd?))
        (resolveUpstream (env.probe 0) (env.probe 1) (env.probe 2)).2.2,
       store, false) := by
  simp only [handleDrivePdf]
  have hsome : (if true &&
      (resolveUpstream (env.probe 0) (env.probe 1) (env.probe 2)).2.1 then
      lookupTile store (docIdFor fid (tileIndex start)) else none) =
      some cached := by
    rw [hread]
    simpa using hlook
  rw [hsome]

/-- C5: when size probing fails for every candidate (`getTotalSize` = 0 for
    all three), a ranged drivepdf request is still answered: whenever tile
    bytes are available (cache hit or an ok fetch), the request `bytes=0-`
    is served as a 206 with served range `0..4194303`, unknown total, and
    `Content-Range: bytes 0-4194303/*`. -/
theorem c5_unknown_total (env : DriveEnv) (tdb : Bool) (store : TileStore)
    (fid : String)
    (h0 : env.probe 0 = 0) (h1 : env.probe 1 = 0) (h2 : env.probe 2 = 0)
    (hok : (env.tileResp 0 0 (TILE_SIZE - 1)).ok = true) :
    ∃ body,
      (handleDrivePdf env tdb store fid (some (0, none))).1 =
        SWResponse.resp206 body 0 (TILE_SIZE - 1) 0 ∧
      contentRangeOf (handleDrivePdf env tdb store fid (some (0, none))).1 =
        some "bytes 0-4194303/*" ∧
      statusOf (handleDrivePdf env tdb store fid (some (0, none))).1 =
        206 := by
  have hres : resolveUpstream (env.probe 0) (env.probe 1) (env.probe 2) =
      (0, true, 0) := by
    rw [h0, h1, h2]
    rfl
  have hread : (resolveUpstream (env.probe 0) (env.probe 1)
      (env.probe 2)).2.1 = true := by
    rw [hres]
  have hcand : (resolveUpstream (env.probe 0) (env.probe 1)
      (env.probe 2)).1 = 0 := by
    rw [hres]
  have htot : (resolveUpstream (env.probe 0) (env.probe 1)
      (env.probe 2)).2.2 = 0 := by
    rw [hres]
  by_cases hcase : tdb = true ∧ ∃ cached,
      lookupTile store (docIdFor fid (tileIndex 0)) = some cached
  · obtain ⟨htdb, cached, hlook⟩ := hcase
    subst htdb
    rw [drive_hit_path env store fid 0 none cached hread hlook, htot]
    exact ⟨_, rfl, rfl, rfl⟩
  · have hmiss : tdb = false ∨
        lookupTile store (docIdFor fid (tileIndex 0)) = none := by
      cases htdb : tdb
      · exact Or.inl rfl
      · cases hlook : lookupTile store (docIdFor fid (tileIndex 0)) with
        | none => exact Or.inr rfl
        | some c => exact absurd ⟨htdb, c, hlook⟩ hcase
    rw [drive_fetch_path env tdb store fid 0 none hmiss, hcand, htot, hread]
    have hok2 : (env.tileResp 0 (tileStart 0)
        (tileEnd (tileStart 0) 0)).ok = true := hok
    have hft : fetchTile (env.tileResp 0 (tileStart 0)
        (tileEnd (tileStart 0) 0)) true =
        TileGot.bytes (env.tileResp 0 (tileStart 0)
          (tileEnd (tileStart 0) 0)).body := by
      simp [fetchTile, hok2]
    rw [hft]
    exact ⟨_, rfl, rfl, rfl⟩

theorem c5_unknown_total_witness :
    ∃ body,
      (handleDrivePdf envUnknown true [] "f" (some (0, none))).1 =
        SWResponse.resp206 body 0 (TILE_SIZE - 1) 0 ∧
      contentRangeOf
          (handleDrivePdf envUnknown true [] "f" (some (0, none))).1 =
        some "bytes 0-4194303/*" ∧
      statusOf (handleDrivePdf envUnknown true [] "f" (some (0, none))).1 =
        206 :=
  c5_unknown_total envUnknown true [] "f" rfl rfl rfl (by decide)

lemma resp_not_ok_status_ne (r : Resp) (h : r.ok = false) : r.status ≠ 206 := by
  simp only [Resp.ok, decide_eq_false_iff_not, not_and, not_lt] at h
  omega

/-- C10: on a ranged drivepdf tile fetch from a read-capable candidate
    (so candidate 0), if the upstream response is not a success
    (`resp.ok` false), `handleDrivePdf` returns that upstream response
    verbatim: no 206 is synthesized (the status is the upstream one, not
    206), and the tile store is left untouched. -/
theorem c10_error_passthrough (env : DriveEnv) (tdb : Bool)
    (store : TileStore) (fid : String) (start : Nat) (reqEnd? : Option Nat)
    (hread : (resolveUpstream (env.probe 0) (env.probe 1)
      (env.probe 2)).2.1 = true)
    (hmiss : tdb = false ∨
      lookupTile store (docIdFor fid (tileIndex start)) = none)
    (hbad : (env.tileResp 0 (tileStart start)
      (tileEnd (tileStart start) (env.probe 0))).ok = false) :
    handleDrivePdf env tdb store fid (some (start, reqEnd?)) =
      (SWResponse.passThrough (env.tileResp 0 (tileStart start)
        (tileEnd (tileStart start) (env.probe 0))), store, true) ∧
    statusOf
        (handleDrivePdf env tdb store fid (some (start, reqEnd?))).1 ≠
      206 := by
  have hres := resolveUpstream_read _ _ _ hread
  have hcand : (resolveUpstream (env.probe 0) (env.probe 1)
      (env.probe 2)).1 = 0 := by
    rw [hres]
  have htot : (resolveUpstream (env.probe 0) (env.probe 1)
      (env.probe 2)).2.2 = env.probe 0 := by
    rw [hres]
  have heq : handleDrivePdf env tdb store fid (some (start, reqEnd?)) =
      (SWResponse.passThrough (env.tileResp 0 (tileStart start)
        (tileEnd (tileStart start) (env.probe 0))), store, true) := by
    rw [drive_fetch_path env tdb store fid start reqEnd? hmiss, hcand, htot,
      hread]
    have hft : fetchTile (env.tileResp 0 (tileStart start)
        (tileEnd (tileStart start) (env.probe 0))) true =
        TileGot.resp (env.tileResp 0 (tileStart start)
          (tileEnd (tileStart start) (env.probe 0))) := by
      simp [fetchTile, hbad]
    rw [hft]
  refine ⟨heq, ?_⟩
  rw [heq]
  exact resp_not_ok_status_ne _ hbad

theorem c10_error_passthrough_witness :
    handleDrivePdf envNotOk true [] "f" (some (2, some 5)) =
      (SWResponse.passThrough (envNotOk.tileResp 0 (tileStart 2)
        (tileEnd (tileStart 2) (envNotOk.probe 0))), [], true) ∧
    statusOf (handleDrivePdf envNotOk true [] "f" (some (2, some 5))).1 ≠
      206 :=
  c10_error_passthrough envNotOk true [] "f" 2 (some 5) (by decide)
    (Or.inr (by decide)) (by decide)

/-- C4: cold-then-warm idempotence.  With the tile cache enabled, a
    read-capable resolved candidate, no persisted tile yet, and an ok
    upstream tile fetch: the cold run fetches (flag `true`) and persists;
    the warm run on the resulting store answers from the persisted tile
    with no tile fetch (flag `false`), leaves the store unchanged, and
    produces a byte-identical 206 response. -/
theorem c4_cold_warm_identical (env : DriveEnv) (store : TileStore)
    (fid : String) (start : Nat) (reqEnd? : Option Nat)
    (hread : (resolveUpstream (env.probe 0) (env.probe 1)
      (env.probe 2)).2.1 = true)
    (hmiss : lookupTile store (docIdFor fid (tileIndex start)) = none)
    (hok : (env.tileResp 0 (tileStart start)
      (tileEnd (tileStart start) (env.probe 0))).ok = true) :
    (handleDrivePdf env true
        (handleDrivePdf env true store fid (some (start, reqEnd?))).2.1
        fid (some (start, reqEnd?))).1 =
      (handleDrivePdf env true store fid (some (start, reqEnd?))).1 ∧
    (handleDrivePdf env true store fid (some (start, reqEnd?))).2.2 =
      true ∧
    (handleDrivePdf env true
        (handleDrivePdf env true store fid (some (start, reqEnd?))).2.1
        fid (some (start, reqEnd?))).2.2 = false ∧
    (handleDrivePdf env true
        (handleDrivePdf env true store fid (some (start, reqEnd?))).2.1
        fid (some (start, reqEnd?))).2.1 =
      (handleDrivePdf env true store fid (some (start, reqEnd?))).2.1 := by
  have hres := resolveUpstream_read _ _ _ hread
  have hcand : (resolveUpstream (env.probe 0) (env.probe 1)
      (env.probe 2)).1 = 0 := by
    rw [hres]
  have htot : (resolveUpstream (env.probe 0) (env.probe 1)
      (env.probe 2)).2.2 = env.probe 0 := by
    rw [hres]
  have hcold : handleDrivePdf env true store fid (some (start, reqEnd?)) =
      (mk206 (env.tileResp 0 (tileStart start)
          (tileEnd (tileStart start) (env.probe 0))).body
        start (tileStart start)
        (min (tileEnd (tileStart start) (env.probe 0))
          (requestedEnd start reqEnd?)) (env.probe 0),
       putTile store (docIdFor fid (tileIndex start))
         (env.tileResp 0 (tileStart start)
           (tileEnd (tileStart start) (env.probe 0))).body,
       true) := by
    rw [drive_fetch_path env true store fid start reqEnd? (Or.inr hmiss),
      hcand, htot, hread]
    have hft : fetchTile (env.tileResp 0 (tileStart start)
        (tileEnd (tileStart start) (env.probe 0))) true =
        TileGot.bytes (env.tileResp 0 (tileStart start)
          (tileEnd (tileStart start) (env.probe 0))).body := by
      simp [fetchTile, hok]
    rw [hft]
    rfl
  have hlook2 : lookupTile
      (putTile store (docIdFor fid (tileIndex start))
        (env.tileResp 0 (tileStart start)
          (tileEnd (tileStart start) (env.probe 0))).body)
      (docIdFor fid (tileIndex start)) =
      some (env.tileResp 0 (tileStart start)
        (tileEnd (tileStart start) (env.probe 0))).body := by
    simp [lookupTile, putTile, List.lookup]
  have hwarm : handleDrivePdf env true
      (putTile store (docIdFor fid (tileIndex start))
        (env.tileResp 0 (tileStart start)
          (tileEnd (tileStart start) (env.probe 0))).body)
      fid (some (start, reqEnd?)) =
      (mk206 (env.tileResp 0 (tileStart start)
          (tileEnd (tileStart start) (env.probe 0))).body
        start (tileStart start)
        (min (tileEnd (tileStart start) (env.probe 0))
          (requestedEnd start reqEnd?)) (env.probe 0),
       putTile store (docIdFor fid (tileIndex start))
         (env.tileResp 0 (tileStart start)
           (tileEnd (tileStart start) (env.probe 0))).body,
       false) := by
    rw [drive_hit_path env _ fid start reqEnd? _ hread hlook2, htot]
  rw [hcold, hwarm]
  exact ⟨rfl, rfl, rfl, rfl⟩

theorem c4_cold_warm_identical_witness :
    (handleDrivePdf envSized true
        (handleDrivePdf envSized true [] "f" (some (2, some 5))).2.1
        "f" (some (2, some 5))).1 =
      (handleDrivePdf envSized true [] "f" (some (2, some 5))).1 ∧
    (handleDrivePdf envSized true [] "f" (some (2, some 5))).2.2 = true ∧
    (handleDrivePdf envSized true
        (handleDrivePdf envSized true [] "f" (some (2, some 5))).2.1
        "f" (some (2, some 5))).2.2 = false ∧
    (handleDrivePdf envSized true
        (handleDrivePdf envSized true [] "f" (some (2, some 5))).2.1
        "f" (some (2, some 5))).2.1 =
      (handleDrivePdf envSized true [] "f" (some (2, some 5))).2.1 :=
  c4_cold_warm_identical envSized [] "f" 2 (some 5) (by decide) (by decide)
    (by decide)

/-- C8: `cacheKeyFor` is a projection: two requests identical except for
    the volatile `v` query parameter (same origin, path and headers, same
    query once every `v` pair is stripped) normalize to the same key; the
    key has method forced to GET, same-origin mode and credentials, and
    keeps the path and the remaining query; a request whose origin differs
    from the engine's own normalizes to `none`. -/
theorem c8_key_projection (so : String) (r1 r2 : SWRequest)
    (ho : r1.origin = r2.origin) (hp : r1.path = r2.path)
    (hh : r1.headers = r2.headers)
    (hq : deleteParam "v" r1.query = deleteParam "v" r2.query) :
    cacheKeyFor so r1 = cacheKeyFor so r2 ∧
    (∀ r : SWRequest, r.origin ≠ so → cacheKeyFor so r = none) ∧
    (∀ (r : SWRequest) (k : CacheKey), cacheKeyFor so r = some k →
      k.method = "GET" ∧ k.mode = "same-origin" ∧
      k.credentials = "same-origin" ∧ k.path = r.path ∧
      k.query = deleteParam "v" r.query) := by
  refine ⟨?_, ?_, ?_⟩
  · unfold cacheKeyFor
    rw [ho, hp, hh, hq]
  · intro r hr
    unfold cacheKeyFor
    rw [if_pos hr]
  · intro r k hk
    unfold cacheKeyFor at hk
    split at hk
    · exact absurd hk (by simp)
    · rw [Option.some.injEq] at hk
      subst hk
      exact ⟨rfl, rfl, rfl, rfl, rfl⟩

theorem c8_key_projection_witness :
    cacheKeyFor "https://a.example"
        ⟨"https://a.example", "/lib/app.js", [("v", "1"), ("x", "2")],
          "GET", [("accept", "*")]⟩ =
      cacheKeyFor "https://a.example"
        ⟨"https://a.example", "/lib/app.js", [("x", "2"), ("v", "9")],
          "GET", [("accept", "*")]⟩ ∧
    cacheKeyFor "https://a.example"
        ⟨"https://couch.example", "/db", [], "GET", []⟩ = none :=
  ⟨(c8_key_projection "https://a.example"
      ⟨"https://a.example", "/lib/app.js", [("v", "1"), ("x", "2")],
        "GET", [("accept", "*")]⟩
      ⟨"https://a.example", "/lib/app.js", [("x", "2"), ("v", "9")],
        "GET", [("accept", "*")]⟩ rfl rfl rfl (by decide)).1,
   (c8_key_projection "https://a.example"
      ⟨"https://a.example", "/lib/app.js", [("v", "1"), ("x", "2")],
        "GET", [("accept", "*")]⟩
      ⟨"https://a.example", "/lib/app.js", [("x", "2"), ("v", "9")],
        "GET", [("accept", "*")]⟩ rfl rfl rfl (by decide)).2.1
      ⟨"https://couch.example", "/db", [], "GET", []⟩ (by decide)⟩

/-- C9: after the activation sweep, among cache names in the engine's
    namespace (names starting with `study-notes-techstudy-`), every name
    other than the current `CACHE_NAME` is deleted, and `CACHE_NAME`
    itself is never deleted and survives. -/
theorem c9_activation_sweep (keys : List String) (k : String)
    (hmem : k ∈ keys) :
    (strStarts nsMarker k = true → k ≠ CACHE_NAME →
      k ∈ sweepDeleted keys ∧ k ∉ sweepRemaining keys) ∧
    (k = CACHE_NAME →
      k ∉ sweepDeleted keys ∧ k ∈ sweepRemaining keys) := by
  constructor
  · intro hs hne
    have ht : sweepTest k = true := by
      simp [sweepTest, hs, bne_iff_ne, hne]
    constructor
    · exact List.mem_filter.2 ⟨hmem, ht⟩
    · intro hmem2
      have h2 := (List.mem_filter.1 hmem2).2
      simp [ht] at h2
  · intro hk
    subst hk
    have ht : sweepTest CACHE_NAME = false := by
      simp [sweepTest]
    constructor
    · intro hmem2
      have h2 := (List.mem_filter.1 hmem2).2
      simp [ht] at h2
    · exact List.mem_filter.2 ⟨hmem, by simp [ht]⟩

theorem c9_activation_sweep_witness :
    ("study-notes-techstudy-v7" ∈
        sweepDeleted ["study-notes-techstudy-v7", CACHE_NAME] ∧
      "study-notes-techstudy-v7" ∉
        sweepRemaining ["study-notes-techstudy-v7", CACHE_NAME]) ∧
    (CACHE_NAME ∉ sweepDeleted ["study-notes-techstudy-v7", CACHE_NAME] ∧
      CACHE_NAME ∈ sweepRemaining ["study-notes-techstudy-v7", CACHE_NAME]) :=
  ⟨(c9_activation_sweep ["study-notes-techstudy-v7", CACHE_NAME]
      "study-notes-techstudy-v7" (by simp)).1 (by decide) (by decide),
   (c9_activation_sweep ["study-notes-techstudy-v7", CACHE_NAME]
      CACHE_NAME (by simp)).2 rfl⟩

/-- C6 counterexample: the navigation branch performs no success check
    before its cache write.  A concrete navigation whose fetch resolves
    with a 404 (an error response, `ok = false`) still gets written into
    the versioned cache under the normalized key — refuting "a copy is
    written only if the response is an affirmative success; error
    responses are never cached". -/
theorem c6_error_cached_counterexample :
    Resp.ok ⟨404, [1]⟩ = false ∧
    (navigationHandle ⟨none, some ⟨404, [1]⟩, true, none, none⟩
        (some ⟨"/index.html", [], "GET", [], "same-origin", "same-origin"⟩)
        []).2 =
      [(⟨"/index.html", [], "GET", [], "same-origin", "same-origin"⟩,
        ⟨404, [1]⟩)] ∧
    lookupCache
        (navigationHandle ⟨none, some ⟨404, [1]⟩, true, none, none⟩
          (some ⟨"/index.html", [], "GET", [], "same-origin",
            "same-origin"⟩) []).2
        ⟨"/index.html", [], "GET", [], "same-origin", "same-origin"⟩ =
      some ⟨404, [1]⟩ := by
  decide

/-- C6 (amended): for every navigation request whose network fetch
    succeeds (no preloaded response was available), a copy of the response
    is written into the versioned cache under the normalized key whenever
    the key normalizes — regardless of the response's status, error
    responses included — and the fresh response is returned immediately,
    independent of the outcome of the fire-and-forget cache write (and no
    write happens when the key is `none`). -/
theorem c6_nav_caches_fresh (env : NavEnv) (k : CacheKey) (cache : VCache)
    (fresh : Resp) (hpre : env.preload = none)
    (hfetch : env.fetchRes = some fresh) :
    (navigationHandle env (some k) cache).1 = some fresh ∧
    (env.putOk = true →
      (navigationHandle env (some k) cache).2 = putCache cache k fresh) ∧
    (env.putOk = false →
      (navigationHandle env (some k) cache).2 = cache) ∧
    (navigationHandle env none cache).1 = some fresh ∧
    (navigationHandle env none cache).2 = cache := by
  refine ⟨?_, ?_, ?_, ?_, ?_⟩
  · simp [navigationHandle, hpre, hfetch]
  · intro h
    simp [navigationHandle, hpre, hfetch, h]
  · intro h
    simp [navigationHandle, hpre, hfetch, h]
  · simp [navigationHandle, hpre, hfetch]
  · simp [navigationHandle, hpre, hfetch]

theorem c6_nav_caches_fresh_witness :
    (navigationHandle ⟨none, some ⟨200, [2]⟩, true, none, none⟩
        (some ⟨"/index.html", [], "GET", [], "same-origin", "same-origin"⟩)
        []).1 = some ⟨200, [2]⟩ ∧
    (navigationHandle ⟨none, some ⟨200, [2]⟩, true, none, none⟩
        (some ⟨"/index.html", [], "GET", [], "same-origin", "same-origin"⟩)
        []).2 =
      putCache [] ⟨"/index.html", [], "GET", [], "same-origin",
        "same-origin"⟩ ⟨200, [2]⟩ :=
  ⟨(c6_nav_caches_fresh ⟨none, some ⟨200, [2]⟩, true, none, none⟩
      ⟨"/index.html", [], "GET", [], "same-origin", "same-origin"⟩ []
      ⟨200, [2]⟩ rfl rfl).1,
   (c6_nav_caches_fresh ⟨none, some ⟨200, [2]⟩, true, none, none⟩
      ⟨"/index.html", [], "GET", [], "same-origin", "same-origin"⟩ []
      ⟨200, [2]⟩ rfl rfl).2.1 rfl⟩

/-- C7: the asset branch is cache-first: a cached entry under the
    normalized key is returned as-is whatever the network does; on a cache
    miss the awaited network result is returned; and on a cache miss with
    a failed network fetch the handler produces no response at all
    (`none` — the dispatcher surfaces this to the client as a network
    failure; no substitute response is fabricated). -/
theorem c7_asset_strategy (env : AssetEnv) (k : CacheKey) (cache : VCache) :
    (∀ c, lookupCache cache k = some c →
      (assetHandle env k cache).1 = some c) ∧
    (∀ r, lookupCache cache k = none → env.fetchRes = some r →
      (assetHandle env k cache).1 = some r) ∧
    (lookupCache cache k = none → env.fetchRes = none →
      (assetHandle env k cache).1 = none) := by
  refine ⟨?_, ?_, ?_⟩
  · intro c hc
    simp [assetHandle, hc]
  · intro r hc hf
    simp [assetHandle, hc, hf]
  · intro hc hf
    simp [assetHandle, hc, hf]

theorem c7_asset_strategy_witness :
    (assetHandle ⟨none, true⟩
        ⟨"/lib/app.js", [], "GET", [], "same-origin", "same-origin"⟩
        [(⟨"/lib/app.js", [], "GET", [], "same-origin", "same-origin"⟩,
          ⟨200, [5]⟩)]).1 = some ⟨200, [5]⟩ ∧
    (assetHandle ⟨some ⟨200, [6]⟩, true⟩
        ⟨"/lib/app.js", [], "GET", [], "same-origin", "same-origin"⟩
        []).1 = some ⟨200, [6]⟩ ∧
    (assetHandle ⟨none, true⟩
        ⟨"/lib/app.js", [], "GET", [], "same-origin", "same-origin"⟩
        []).1 = none :=
  ⟨(c7_asset_strategy ⟨none, true⟩
      ⟨"/lib/app.js", [], "GET", [], "same-origin", "same-origin"⟩
      [(⟨"/lib/app.js", [], "GET", [], "same-origin", "same-origin"⟩,
        ⟨200, [5]⟩)]).1 ⟨200, [5]⟩ (by decide),
   (c7_asset_strategy ⟨some ⟨200, [6]⟩, true⟩
      ⟨"/lib/app.js", [], "GET", [], "same-origin", "same-origin"⟩ []).2.1
      ⟨200, [6]⟩ rfl rfl,
   (c7_asset_strategy ⟨none, true⟩
      ⟨"/lib/app.js", [], "GET", [], "same-origin", "same-origin"⟩
      []).2.2 rfl rfl⟩
